import Mathlib

/-!
Verification of the SecureShare download-authorization core.

Shallow embedding of:
  * the `share_links` / `download_attempts` / `download_logs` / `files`
    schema (supabase/migrations/...sql),
  * the `log_download(link_token, user_agent_text, ip_addr)` plpgsql
    function (the rate-limited version of the migration),
  * the `get_share_link_by_token(link_token)` SQL function,
  * the `POST /download-file` edge handler
    (supabase/functions/download-file/index.ts),
together with a small-step interleaving model of two concurrent
`log_download` transactions.

Modelling conventions: uuids are `Nat` drawn from a `nextId` counter;
`inet` and `text` are `String`; `timestamptz` is `Int` (seconds);
`interval '1 hour'` is `3600`.  A plpgsql `RAISE EXCEPTION` aborts the
surrounding transaction (the PostgREST RPC call runs in a single
transaction), so the committed semantics `log_download` discards all
writes of the body on error; the body-level write sequence is kept
separately as `log_download_run` so the discarded writes stay visible.
-/

instance {ε α : Type} [DecidableEq ε] [DecidableEq α] : DecidableEq (Except ε α) :=
  fun x y =>
    match x, y with
    | .ok a, .ok b =>
        if h : a = b then .isTrue (by simp [h]) else .isFalse (by simp [h])
    | .error e, .error f =>
        if h : e = f then .isTrue (by simp [h]) else .isFalse (by simp [h])
    | .ok _, .error _ => .isFalse (by simp)
    | .error _, .ok _ => .isFalse (by simp)

/-- Row of `share_links` (columns of the CREATE TABLE in the migration). -/
structure ShareLink where
  id : Nat
  fileId : Nat
  token : String
  expiresAt : Option Int
  maxDownloads : Option Int
  currentDownloads : Int
  passwordHash : Option String
  isActive : Bool
  createdAt : Int
  updatedAt : Int
  deriving DecidableEq

/-- Row of `files` (only the columns read by the core path). -/
structure FileRec where
  id : Nat
  filename : String
  originalFilename : String
  fileSize : Int
  storagePath : String
  deriving DecidableEq

/-- Row of `download_attempts`. -/
structure DownloadAttempt where
  id : Nat
  ipAddress : String
  token : String
  attemptedAt : Int
  success : Bool
  deriving DecidableEq

/-- Row of `download_logs`. -/
structure DownloadLog where
  id : Nat
  shareLinkId : Nat
  ipAddress : Option String
  userAgent : Option String
  downloadedAt : Int
  deriving DecidableEq

/-- The durable store: the four tables of the core plus the uuid source. -/
structure DB where
  shareLinks : List ShareLink
  files : List FileRec
  downloadAttempts : List DownloadAttempt
  downloadLogs : List DownloadLog
  nextId : Nat
  deriving DecidableEq

/-- `SELECT COUNT(*) FROM download_attempts WHERE ip_address = ip_addr AND
attempted_at > now() - interval '1 hour'` — the per-IP window. -/
def recentAttemptsCount (db : DB) (ipAddr : String) (now : Int) : Nat :=
  (db.downloadAttempts.filter fun a =>
    a.ipAddress == ipAddr && decide (now - 3600 < a.attemptedAt)).length

/-- `SELECT COUNT(*) FROM download_attempts WHERE token = link_token AND
success = false AND attempted_at > now() - interval '1 hour'` — the
per-token failure window. -/
def recentFailuresCount (db : DB) (linkToken : String) (now : Int) : Nat :=
  (db.downloadAttempts.filter fun a =>
    a.token == linkToken && !a.success && decide (now - 3600 < a.attemptedAt)).length

/-- The usability predicate of the WHERE clause shared by `log_download`
and `get_share_link_by_token`: `is_active = true AND (expires_at IS NULL
OR expires_at > now()) AND (max_downloads IS NULL OR current_downloads <
max_downloads)`. -/
def linkUsable (sl : ShareLink) (now : Int) : Bool :=
  sl.isActive &&
    (match sl.expiresAt with
     | none => true
     | some e => decide (now < e)) &&
    (match sl.maxDownloads with
     | none => true
     | some m => decide (sl.currentDownloads < m))

/-- `SELECT id INTO link_id FROM share_links WHERE token = link_token AND
<usable>` — `token` is UNIQUE, so at most one row matches. -/
def selectUsableLink (db : DB) (linkToken : String) (now : Int) : Option ShareLink :=
  db.shareLinks.find? fun sl => sl.token == linkToken && linkUsable sl now

/-- `INSERT INTO download_attempts (ip_address, token, success) VALUES
(ip_addr, link_token, b)`; `attempted_at` defaults to `now()`, `id` to a
fresh uuid. -/
def insertAttempt (db : DB) (ipAddr linkToken : String) (succ : Bool) (now : Int) : DB :=
  { db with
    downloadAttempts :=
      { id := db.nextId, ipAddress := ipAddr, token := linkToken,
        attemptedAt := now, success := succ } :: db.downloadAttempts,
    nextId := db.nextId + 1 }

/-- `INSERT INTO download_logs (share_link_id, user_agent, ip_address)
VALUES (link_id, user_agent_text, ip_addr) RETURNING id INTO log_id`. -/
def insertLog (db : DB) (linkId : Nat) (userAgentText ipAddr : String) (now : Int) :
    DB × Nat :=
  ({ db with
     downloadLogs :=
       { id := db.nextId, shareLinkId := linkId, ipAddress := some ipAddr,
         userAgent := some userAgentText, downloadedAt := now } :: db.downloadLogs,
     nextId := db.nextId + 1 }, db.nextId)

/-- `UPDATE share_links SET current_downloads = current_downloads + 1 WHERE
id = link_id`, with the BEFORE UPDATE trigger
`update_share_links_updated_at` setting `updated_at = now()` on the
updated row. -/
def updateShareLinkCounter (links : List ShareLink) (linkId : Nat) (now : Int) :
    List ShareLink :=
  links.map fun sl =>
    if sl.id = linkId then
      { sl with currentDownloads := sl.currentDownloads + 1, updatedAt := now }
    else sl

def msgIpRateLimit : String :=
  "Rate limit exceeded. Too many download attempts from this IP address."

def msgTokenRateLimit : String :=
  "Too many failed attempts for this link. Please try again later."

def msgInvalidLink : String := "Invalid or expired share link"

/-- The body of `public.log_download(link_token, user_agent_text, ip_addr)`,
statement by statement, returning the store as written by the body together
with the outcome (`.ok log_id` for `RETURN log_id`, `.error msg` for
`RAISE EXCEPTION msg`).  On the invalid-link branch the failed-attempt
insert has executed before the raise, and is part of the returned store. -/
def log_download_run (db : DB) (linkToken userAgentText ipAddr : String) (now : Int) :
    DB × Except String Nat :=
  if 20 ≤ recentAttemptsCount db ipAddr now then
    (db, .error msgIpRateLimit)
  else if 10 ≤ recentFailuresCount db linkToken now then
    (db, .error msgTokenRateLimit)
  else
    match selectUsableLink db linkToken now with
    | none =>
        (insertAttempt db ipAddr linkToken false now, .error msgInvalidLink)
    | some sl =>
        let db1 := insertAttempt db ipAddr linkToken true now
        let p := insertLog db1 sl.id userAgentText ipAddr now
        let db3 := { p.1 with shareLinks := updateShareLinkCounter p.1.shareLinks sl.id now }
        (db3, .ok p.2)

/-- Committed (transactional) semantics of one `log_download` RPC: the
PostgREST call runs in a single transaction, and `RAISE EXCEPTION` aborts
it, rolling back every write of the body — including the failed-attempt
insert that precedes the raise. -/
def log_download (db : DB) (linkToken userAgentText ipAddr : String) (now : Int) :
    Except String (DB × Nat) :=
  match log_download_run db linkToken userAgentText ipAddr now with
  | (_, .error e) => .error e
  | (db', .ok logId) => .ok (db', logId)

/-- Result row type of `get_share_link_by_token` (RETURNS TABLE columns). -/
structure ShareLinkRow where
  id : Nat
  file_id : Nat
  token : String
  expires_at : Option Int
  max_downloads : Option Int
  current_downloads : Int
  is_active : Bool
  filename : String
  original_filename : String
  file_size : Int
  storage_path : String
  deriving DecidableEq

/-- The SELECT list of `get_share_link_by_token`: share-link columns joined
with the file columns of `files f ON f.id = sl.file_id`. -/
def mkShareLinkRow (sl : ShareLink) (f : FileRec) : ShareLinkRow :=
  { id := sl.id, file_id := sl.fileId, token := sl.token,
    expires_at := sl.expiresAt, max_downloads := sl.maxDownloads,
    current_downloads := sl.currentDownloads, is_active := sl.isActive,
    filename := f.filename, original_filename := f.originalFilename,
    file_size := f.fileSize, storage_path := f.storagePath }

/-- `public.get_share_link_by_token(link_token)`: join of `share_links`
with `files`, filtered to `sl.token = link_token AND <usable>`, `LIMIT 1`. -/
def get_share_link_by_token (db : DB) (linkToken : String) (now : Int) :
    List ShareLinkRow :=
  ((db.shareLinks.filter fun sl => sl.token == linkToken && linkUsable sl now).flatMap
    fun sl => (db.files.filter fun f => f.id == sl.fileId).map (mkShareLinkRow sl)).take 1

/-! ## The `POST /download-file` edge handler
(supabase/functions/download-file/index.ts).  JavaScript truthiness of the
fields it branches on is modelled explicitly: a missing or empty string is
falsy; the number `0` is falsy (`shareLink.max_downloads ? ... : false`). -/

/-- The request surface the handler reads: the JSON body's `token` and the
`x-forwarded-for` / `x-real-ip` / `user-agent` headers (absent = `none`). -/
structure Request where
  token : Option String
  xForwardedFor : Option String
  xRealIp : Option String
  userAgent : Option String
  deriving DecidableEq

/-- Client-visible response body: `{ error: msg }` or
`{ signedUrl, filename }`. -/
inductive RespBody where
  | failure (msg : String)
  | payload (signedUrl : String) (filename : String)
  deriving DecidableEq

structure Response where
  status : Nat
  body : RespBody
  deriving DecidableEq

/-- JS truthiness of a nullable string (`null`, `undefined` and `""` are
falsy). -/
def jsStrTruthy : Option String → Bool
  | none => false
  | some s => s != ""

/-- `forwardedFor ? forwardedFor.split(',')[0].trim() :
(req.headers.get('x-real-ip') || '0.0.0.0')`. -/
def clientIp (req : Request) : String :=
  if jsStrTruthy req.xForwardedFor then
    (((req.xForwardedFor.getD "").splitOn ",").headD "").trim
  else if jsStrTruthy req.xRealIp then req.xRealIp.getD ""
  else "0.0.0.0"

/-- `req.headers.get('user-agent') || 'unknown'`. -/
def reqUserAgent (req : Request) : String :=
  if jsStrTruthy req.userAgent then req.userAgent.getD "" else "unknown"

/-- The handler's re-validation of the returned row: `isExpired` is
`shareLink.expires_at ? new Date(shareLink.expires_at) < now : false` and
`limitReached` is `shareLink.max_downloads ? shareLink.current_downloads >=
shareLink.max_downloads : false`; the row is rejected when
`!shareLink.is_active || isExpired || limitReached`. -/
def recheckValid (row : ShareLinkRow) (now : Int) : Bool :=
  let isExpired :=
    match row.expires_at with
    | none => false
    | some e => decide (e < now)
  let limitReached :=
    match row.max_downloads with
    | none => false
    | some m => if m = 0 then false else decide (m ≤ row.current_downloads)
  row.is_active && !isExpired && !limitReached

/-- The `Deno.serve` handler of `download-file/index.ts` (POST path; the
CORS preflight and JSON-parse failure branches are outside the modelled
surface).  `signUrl` abstracts the external Signed-URL Issuer
(`createSignedUrl(storage_path, 3600)`), assumed available.  Returns the
response together with the store as committed by the call. -/
def downloadFile (signUrl : String → String) (db : DB) (req : Request) (now : Int) :
    Response × DB :=
  if !jsStrTruthy req.token then
    ({ status := 400, body := .failure "Token is required" }, db)
  else
    let tok := req.token.getD ""
    match get_share_link_by_token db tok now with
    | [] => ({ status := 404, body := .failure "Invalid or expired link" }, db)
    | shareLink :: _ =>
      if !recheckValid shareLink now then
        ({ status := 403, body := .failure "Link is no longer valid" }, db)
      else
        match log_download db tok (reqUserAgent req) (clientIp req) now with
        | .error e =>
            ({ status := 403,
               body := .failure (if e != "" then e else "Failed to log download") }, db)
        | .ok (db', _) =>
            ({ status := 200,
               body := .payload (signUrl shareLink.storage_path)
                 shareLink.original_filename }, db')

/-! ## Interleaving model of concurrent `log_download` transactions.

Each SQL statement of the plpgsql body executes atomically against the
shared store; a thread is a program counter over those statements plus the
local variables (`recent_attempts` / `recent_failures` checks are folded
into their guards, `link_id` and `log_id` are kept).  Under READ COMMITTED
each statement of a transaction sees the latest committed state; the
schedules used below only interleave read statements of one transaction
before the write statements of the other, so every execution modelled here
is realizable under PostgreSQL's READ COMMITTED isolation.  `RAISE
EXCEPTION` aborts the whole transaction; on the only raising branch
reachable below (invalid link) the transaction has performed no prior
write, so rollback leaves the shared store unchanged. -/

/-- One in-flight `log_download(tok, ua, ip)` transaction. -/
structure Thread where
  pc : Nat
  tok : String
  ua : String
  ip : String
  linkId : Option Nat
  logId : Option Nat
  res : Option (Except String Nat)
  deriving DecidableEq

/-- A fresh transaction about to execute `log_download(tok, ua, ip)`. -/
def mkThread (tok ua ip : String) : Thread :=
  { pc := 0, tok := tok, ua := ua, ip := ip,
    linkId := none, logId := none, res := none }

/-- Execute the next statement of the thread's `log_download` body against
the shared store.  pc 0: per-IP window check; pc 1: per-token failure
window check; pc 2: `SELECT id INTO link_id`; pc 3: the `IF link_id IS
NULL` branch (raise, rolling back — no prior write exists); pc 4: insert
the successful attempt; pc 5: insert the download log; pc 6: the counter
`UPDATE`; pc 7: `RETURN log_id`. -/
def stepThread (db : DB) (t : Thread) (now : Int) : DB × Thread :=
  if t.res.isSome then (db, t)
  else
    match t.pc with
    | 0 =>
        if 20 ≤ recentAttemptsCount db t.ip now then
          (db, { t with res := some (.error msgIpRateLimit) })
        else (db, { t with pc := 1 })
    | 1 =>
        if 10 ≤ recentFailuresCount db t.tok now then
          (db, { t with res := some (.error msgTokenRateLimit) })
        else (db, { t with pc := 2 })
    | 2 =>
        (db, { t with linkId := (selectUsableLink db t.tok now).map ShareLink.id, pc := 3 })
    | 3 =>
        match t.linkId with
        | none => (db, { t with res := some (.error msgInvalidLink) })
        | some _ => (db, { t with pc := 4 })
    | 4 => (insertAttempt db t.ip t.tok true now, { t with pc := 5 })
    | 5 =>
        let p := insertLog db (t.linkId.getD 0) t.ua t.ip now
        (p.1, { t with logId := some p.2, pc := 6 })
    | 6 =>
        ({ db with
           shareLinks := updateShareLinkCounter db.shareLinks (t.linkId.getD 0) now },
         { t with pc := 7 })
    | _ => (db, { t with res := some (.ok (t.logId.getD 0)) })

/-- Run two concurrent transactions under a schedule: `true` steps the
first thread, `false` the second. -/
def runTwo (db : DB) (t1 t2 : Thread) (sched : List Bool) (now : Int) :
    DB × Thread × Thread :=
  match sched with
  | [] => (db, t1, t2)
  | b :: rest =>
      if b then
        let p := stepThread db t1 now
        runTwo p.1 p.2 t2 rest now
      else
        let p := stepThread db t2 now
        runTwo p.1 t1 p.2 rest now

/-! ## Shared fixtures: a file, a one-download link, and small stores. -/

def fileA : FileRec :=
  { id := 1, filename := "enc.bin", originalFilename := "report.pdf",
    fileSize := 2048, storagePath := "u1/enc.bin" }

def linkA : ShareLink :=
  { id := 1, fileId := 1, token := "tok", expiresAt := none,
    maxDownloads := some 1, currentDownloads := 0, passwordHash := none,
    isActive := true, createdAt := 0, updatedAt := 0 }

def dbA : DB :=
  { shareLinks := [linkA], files := [fileA], downloadAttempts := [],
    downloadLogs := [], nextId := 10 }

/-- A trivial stand-in for the external Signed-URL Issuer. -/
def signUrl0 : String → String := fun p => "signed-" ++ p

/-- The store after one successful `log_download dbA "tok" "uaA" "1.1.1.1"
100` call. -/
def dbAafter : DB :=
  { shareLinks := [{ linkA with currentDownloads := 1, updatedAt := 100 }],
    files := [fileA],
    downloadAttempts :=
      [{ id := 10, ipAddress := "1.1.1.1", token := "tok",
         attemptedAt := 100, success := true }],
    downloadLogs :=
      [{ id := 11, shareLinkId := 1, ipAddress := some "1.1.1.1",
         userAgent := some "uaA", downloadedAt := 100 }],
    nextId := 12 }

/-- The row `get_share_link_by_token dbA "tok"` returns. -/
def rowA : ShareLinkRow := mkShareLinkRow linkA fileA

/-- A request presenting a token that matches no share link in `dbA`. -/
def requestUnknown : Request :=
  { token := some "nosuchtoken", xForwardedFor := none,
    xRealIp := some "1.2.3.4", userAgent := some "ua" }

/-- An expired link (`expiresAt = 50`, evaluated at `now = 100`). -/
def linkExpired : ShareLink :=
  { linkA with id := 2, token := "expd", expiresAt := some 50 }

/-- An exhausted link (`currentDownloads = maxDownloads = 1`). -/
def linkExhausted : ShareLink :=
  { linkA with id := 3, token := "exhd", currentDownloads := 1 }

def dbC6 : DB :=
  { shareLinks := [linkExpired, linkExhausted], files := [fileA],
    downloadAttempts := [], downloadLogs := [], nextId := 20 }

def requestExpired : Request :=
  { token := some "expd", xForwardedFor := none,
    xRealIp := some "1.2.3.4", userAgent := some "ua" }

def requestExhausted : Request :=
  { token := some "exhd", xForwardedFor := none,
    xRealIp := some "1.2.3.4", userAgent := some "ua" }

/-- `n` prior attempts from `ip` inside the trailing hour (at `now = 100`). -/
def attemptsFrom (ip tok : String) (succ : Bool) (n : Nat) : List DownloadAttempt :=
  (List.range n).map fun i =>
    { id := i, ipAddress := ip, token := tok, attemptedAt := 90, success := succ }

/-- Store whose per-IP window for `7.7.7.7` is already at 20 attempts. -/
def dbIpLimited : DB :=
  { shareLinks := [linkA], files := [fileA],
    downloadAttempts := attemptsFrom "7.7.7.7" "other" true 20,
    downloadLogs := [], nextId := 100 }

def requestIpLimited : Request :=
  { token := some "tok", xForwardedFor := none,
    xRealIp := some "7.7.7.7", userAgent := some "ua" }

/-- Store whose per-token failure window for `"tok"` is already at 10. -/
def dbTokenLimited : DB :=
  { shareLinks := [linkA], files := [fileA],
    downloadAttempts := attemptsFrom "8.8.8.8" "tok" false 10,
    downloadLogs := [], nextId := 100 }

def requestTokenLimited : Request :=
  { token := some "tok", xForwardedFor := none,
    xRealIp := some "5.5.5.5", userAgent := some "ua" }

/-- The two concurrent `log_download("tok")` transactions of the race. -/
def thread1 : Thread := mkThread "tok" "uaA" "1.1.1.1"

def thread2 : Thread := mkThread "tok" "uaB" "2.2.2.2"

/-- Schedule realizable under READ COMMITTED: both transactions run their
read statements (rate checks and the link SELECT, pcs 0-3) before either
runs its writes (pcs 4-7). -/
def raceSchedule : List Bool :=
  [true, true, true, true, false, false, false, false,
   true, true, true, true, false, false, false, false]

/-! ## Inversion of the committed `log_download` semantics. -/

/-- A successful `log_download` call pins down the committed store
completely: the rate windows were below their limits, a usable link with
the presented token existed, and the result adds one successful attempt,
one log row carrying the call's ip/user-agent, and routes the counter
update through `updateShareLinkCounter` at the found link's id. -/
theorem log_download_ok_inv (db : DB) (tok ua ip : String) (now : Int)
    (db' : DB) (i : Nat)
    (h : log_download db tok ua ip now = .ok (db', i)) :
    recentAttemptsCount db ip now < 20 ∧
    recentFailuresCount db tok now < 10 ∧
    ∃ sl, selectUsableLink db tok now = some sl ∧
      i = db.nextId + 1 ∧
      db' = { shareLinks := updateShareLinkCounter db.shareLinks sl.id now,
              files := db.files,
              downloadAttempts :=
                { id := db.nextId, ipAddress := ip, token := tok,
                  attemptedAt := now, success := true } :: db.downloadAttempts,
              downloadLogs :=
                { id := db.nextId + 1, shareLinkId := sl.id, ipAddress := some ip,
                  userAgent := some ua, downloadedAt := now } :: db.downloadLogs,
              nextId := db.nextId + 2 } := by
  unfold log_download log_download_run at h
  by_cases h1 : 20 ≤ recentAttemptsCount db ip now
  · simp [h1] at h
  · by_cases h2 : 10 ≤ recentFailuresCount db tok now
    · simp [h1, h2] at h
    · cases hsel : selectUsableLink db tok now with
      | none => simp [h1, h2, hsel] at h
      | some sl =>
          simp only [if_neg h1, if_neg h2, hsel, insertAttempt, insertLog] at h
          have h' := Except.ok.inj h
          exact ⟨by omega, by omega, sl, rfl, (congrArg Prod.snd h').symm,
            (congrArg Prod.fst h').symm⟩

/-! ## Helper lemmas. -/

/-- Executable form of the spec invariant `currentDownloads <= maxDownloads
whenever maxDownloads is set`. -/
def linkCountOk (sl : ShareLink) : Bool :=
  match sl.maxDownloads with
  | none => true
  | some m => decide (sl.currentDownloads ≤ m)

theorem linkUsable_spec (sl : ShareLink) (now : Int) (h : linkUsable sl now = true) :
    sl.isActive = true ∧ (∀ e, sl.expiresAt = some e → now < e) ∧
    (∀ m, sl.maxDownloads = some m → sl.currentDownloads < m) := by
  unfold linkUsable at h
  cases he : sl.expiresAt <;> cases hm : sl.maxDownloads <;>
    rw [he, hm] at h <;> simp_all

theorem selectUsableLink_spec (db : DB) (tok : String) (now : Int) (sl : ShareLink)
    (h : selectUsableLink db tok now = some sl) :
    sl ∈ db.shareLinks ∧ sl.token = tok ∧ linkUsable sl now = true := by
  have hp := List.find?_some h
  rw [Bool.and_eq_true, beq_iff_eq] at hp
  exact ⟨List.mem_of_find?_eq_some h, hp.1, hp.2⟩

theorem log_download_ip_limited (db : DB) (tok ua ip : String) (now : Int)
    (h : 20 ≤ recentAttemptsCount db ip now) :
    log_download db tok ua ip now = .error msgIpRateLimit := by
  unfold log_download log_download_run
  rw [if_pos h]

theorem log_download_token_limited (db : DB) (tok ua ip : String) (now : Int)
    (h1 : recentAttemptsCount db ip now < 20)
    (h2 : 10 ≤ recentFailuresCount db tok now) :
    log_download db tok ua ip now = .error msgTokenRateLimit := by
  unfold log_download log_download_run
  rw [if_neg (Nat.not_le.mpr h1), if_pos h2]

/-- Every row produced by `get_share_link_by_token` comes from a stored
link joined with a stored file, matches the presented token exactly, and
passed the usability filter. -/
theorem mem_get_share_link (db : DB) (tok : String) (now : Int) (r : ShareLinkRow)
    (hr : r ∈ get_share_link_by_token db tok now) :
    ∃ sl f, sl ∈ db.shareLinks ∧ f ∈ db.files ∧ r = mkShareLinkRow sl f ∧
      sl.token = tok ∧ linkUsable sl now = true := by
  unfold get_share_link_by_token at hr
  have hr' := List.take_subset 1 _ hr
  rw [List.mem_flatMap] at hr'
  obtain ⟨sl, hsl, hrm⟩ := hr'
  rw [List.mem_map] at hrm
  obtain ⟨f, hf, hrf⟩ := hrm
  rw [List.mem_filter] at hsl
  obtain ⟨hmem, hcond⟩ := hsl
  rw [Bool.and_eq_true, beq_iff_eq] at hcond
  rw [List.mem_filter] at hf
  exact ⟨sl, f, hmem, hf.1, hrf.symm, hcond.1, hcond.2⟩


/-! ## Claim theorems. -/

/-- C3: an invocation of `log_download` with a token whose link is usable
and with neither rate-limit window tripped succeeds, returning the fresh
log id, and performs exactly three writes: it prepends one successful
`download_attempts` row, prepends one `download_logs` row carrying the
requester's ip and user-agent, and increments the target link's
`current_downloads` by exactly 1, committing all of them together (the
committed store is exactly the initial store plus these three changes). -/
theorem C3_success_performs_three_writes (db : DB) (tok ua ip : String)
    (now : Int) (sl : ShareLink)
    (h1 : recentAttemptsCount db ip now < 20)
    (h2 : recentFailuresCount db tok now < 10)
    (h3 : selectUsableLink db tok now = some sl) :
    ∃ db' logId, log_download db tok ua ip now = .ok (db', logId) ∧
      db'.downloadAttempts =
        { id := db.nextId, ipAddress := ip, token := tok, attemptedAt := now,
          success := true } :: db.downloadAttempts ∧
      db'.downloadLogs =
        { id := logId, shareLinkId := sl.id, ipAddress := some ip,
          userAgent := some ua, downloadedAt := now } :: db.downloadLogs ∧
      db'.shareLinks = updateShareLinkCounter db.shareLinks sl.id now ∧
      (∀ s ∈ db.shareLinks, s.id = sl.id →
        { s with currentDownloads := s.currentDownloads + 1,
                 updatedAt := now } ∈ db'.shareLinks) ∧
      (∀ s ∈ db.shareLinks, s.id ≠ sl.id → s ∈ db'.shareLinks) ∧
      db'.files = db.files := by
  have e : log_download db tok ua ip now =
      .ok ({ shareLinks := updateShareLinkCounter db.shareLinks sl.id now,
             files := db.files,
             downloadAttempts :=
               { id := db.nextId, ipAddress := ip, token := tok,
                 attemptedAt := now, success := true } :: db.downloadAttempts,
             downloadLogs :=
               { id := db.nextId + 1, shareLinkId := sl.id, ipAddress := some ip,
                 userAgent := some ua, downloadedAt := now } :: db.downloadLogs,
             nextId := db.nextId + 2 }, db.nextId + 1) := by
    unfold log_download log_download_run
    rw [if_neg (Nat.not_le.mpr h1), if_neg (Nat.not_le.mpr h2), h3]
    rfl
  refine ⟨_, _, e, rfl, rfl, rfl, ?_, ?_, rfl⟩
  · intro s hs hid
    have h4 := List.mem_map_of_mem
      (fun t : ShareLink => if t.id = sl.id then
        { t with currentDownloads := t.currentDownloads + 1, updatedAt := now }
      else t) hs
    simpa [updateShareLinkCounter, hid] using h4
  · intro s hs hid
    have h4 := List.mem_map_of_mem
      (fun t : ShareLink => if t.id = sl.id then
        { t with currentDownloads := t.currentDownloads + 1, updatedAt := now }
      else t) hs
    simpa [updateShareLinkCounter, hid] using h4

theorem C3_success_performs_three_writes_witness :
    recentAttemptsCount dbA "1.1.1.1" 100 < 20 ∧
    recentFailuresCount dbA "tok" 100 < 10 ∧
    selectUsableLink dbA "tok" 100 = some linkA ∧
    ∃ db' logId, log_download dbA "tok" "uaA" "1.1.1.1" 100 = .ok (db', logId) ∧
      db'.downloadAttempts =
        { id := dbA.nextId, ipAddress := "1.1.1.1", token := "tok",
          attemptedAt := 100, success := true } :: dbA.downloadAttempts ∧
      db'.downloadLogs =
        { id := logId, shareLinkId := linkA.id, ipAddress := some "1.1.1.1",
          userAgent := some "uaA", downloadedAt := 100 } :: dbA.downloadLogs ∧
      db'.shareLinks = updateShareLinkCounter dbA.shareLinks linkA.id 100 ∧
      (∀ s ∈ dbA.shareLinks, s.id = linkA.id →
        { s with currentDownloads := s.currentDownloads + 1,
                 updatedAt := 100 } ∈ db'.shareLinks) ∧
      (∀ s ∈ dbA.shareLinks, s.id ≠ linkA.id → s ∈ db'.shareLinks) ∧
      db'.files = dbA.files :=
  ⟨by decide, by decide, by decide,
   C3_success_performs_three_writes dbA "tok" "uaA" "1.1.1.1" 100 linkA
     (by decide) (by decide) (by decide)⟩

/-- C4: `log_download` evaluates the two rate-limit windows before reading
the `share_links` record — a tripped window yields the corresponding raise
no matter what the `share_links` (or `files` / `download_logs`) tables
hold — the per-IP window trips at ≥ 20 attempts (success or failure) in
the trailing hour, the per-token window at ≥ 10 failed attempts in the
trailing hour, and in either case the body has performed no write
(`log_download_run` returns the store unchanged) and the transaction
commits nothing. -/
theorem C4_rate_limits_before_link_read (db : DB) (tok ua ip : String) (now : Int) :
    (20 ≤ recentAttemptsCount db ip now →
      log_download db tok ua ip now = .error msgIpRateLimit ∧
      (log_download_run db tok ua ip now).1 = db ∧
      ∀ links fs logs,
        log_download { db with shareLinks := links, files := fs, downloadLogs := logs }
          tok ua ip now = .error msgIpRateLimit) ∧
    (recentAttemptsCount db ip now < 20 → 10 ≤ recentFailuresCount db tok now →
      log_download db tok ua ip now = .error msgTokenRateLimit ∧
      (log_download_run db tok ua ip now).1 = db ∧
      ∀ links fs logs,
        log_download { db with shareLinks := links, files := fs, downloadLogs := logs }
          tok ua ip now = .error msgTokenRateLimit) := by
  constructor
  · intro h
    refine ⟨log_download_ip_limited db tok ua ip now h, ?_, ?_⟩
    · unfold log_download_run
      rw [if_pos h]
    · intro links fs logs
      exact log_download_ip_limited _ tok ua ip now h
  · intro h1 h2
    refine ⟨log_download_token_limited db tok ua ip now h1 h2, ?_, ?_⟩
    · unfold log_download_run
      rw [if_neg (Nat.not_le.mpr h1), if_pos h2]
    · intro links fs logs
      exact log_download_token_limited _ tok ua ip now h1 h2

theorem C4_rate_limits_before_link_read_witness :
    (log_download dbIpLimited "tok" "ua" "7.7.7.7" 100 = .error msgIpRateLimit ∧
      (log_download_run dbIpLimited "tok" "ua" "7.7.7.7" 100).1 = dbIpLimited) ∧
    (log_download dbTokenLimited "tok" "ua" "5.5.5.5" 100 = .error msgTokenRateLimit ∧
      (log_download_run dbTokenLimited "tok" "ua" "5.5.5.5" 100).1 = dbTokenLimited) :=
  ⟨⟨((C4_rate_limits_before_link_read dbIpLimited "tok" "ua" "7.7.7.7" 100).1
       (by decide)).1,
    ((C4_rate_limits_before_link_read dbIpLimited "tok" "ua" "7.7.7.7" 100).1
       (by decide)).2.1⟩,
   ⟨((C4_rate_limits_before_link_read dbTokenLimited "tok" "ua" "5.5.5.5" 100).2
       (by decide) (by decide)).1,
    ((C4_rate_limits_before_link_read dbTokenLimited "tok" "ua" "5.5.5.5" 100).2
       (by decide) (by decide)).2.1⟩⟩

/-- C2: operations preserve the ShareLink invariant.  A committed
`log_download` keeps `currentDownloads <= maxDownloads` on every row when
it held before, never decreases any row's counter, and the one counter
change it makes adds exactly 1 and happens only on a row that passed the
`current_downloads < max_downloads` check (when `max_downloads` is set);
the edge handler mutates the store only through `log_download` (the lookup
RPC is a pure read). -/
theorem C2_sharelink_invariant_preserved (db : DB) (tok ua ip : String)
    (now : Int) (db' : DB) (logId : Nat)
    (hok : log_download db tok ua ip now = .ok (db', logId))
    (huniq : (db.shareLinks.map ShareLink.id).Nodup)
    (hinv : ∀ sl ∈ db.shareLinks, linkCountOk sl = true) :
    (∀ sl ∈ db'.shareLinks, linkCountOk sl = true) ∧
    (∀ sl' ∈ db'.shareLinks, ∃ sl ∈ db.shareLinks,
      sl.id = sl'.id ∧ sl.token = sl'.token ∧
      sl.currentDownloads ≤ sl'.currentDownloads ∧
      (sl'.currentDownloads = sl.currentDownloads ∨
        (sl'.currentDownloads = sl.currentDownloads + 1 ∧
          (sl.maxDownloads = none ∨
            ∃ m, sl.maxDownloads = some m ∧ sl.currentDownloads < m)))) ∧
    (∀ su req, (downloadFile su db req now).2 = db ∨
      ∃ db2 i2,
        log_download db (req.token.getD "") (reqUserAgent req) (clientIp req) now
          = .ok (db2, i2) ∧ (downloadFile su db req now).2 = db2) := by
  obtain ⟨-, -, sl, hsel, -, hdb'⟩ := log_download_ok_inv db tok ua ip now db' logId hok
  obtain ⟨hmem, htok, hus⟩ := selectUsableLink_spec db tok now sl hsel
  obtain ⟨hact, hexp, hmax⟩ := linkUsable_spec sl now hus
  have hinj := List.inj_on_of_nodup_map huniq
  refine ⟨?_, ?_, ?_⟩
  · intro sl' h'
    rw [hdb'] at h'
    unfold updateShareLinkCounter at h'
    rw [List.mem_map] at h'
    obtain ⟨s, hs, hfs⟩ := h'
    by_cases hid : s.id = sl.id
    · have hssl : s = sl := hinj hs hmem hid
      subst hssl
      rw [if_pos rfl] at hfs
      subst hfs
      unfold linkCountOk
      cases hm : s.maxDownloads with
      | none => rfl
      | some m =>
          show decide (s.currentDownloads + 1 ≤ m) = true
          have := hmax m hm
          simp only [decide_eq_true_eq]
          omega
    · rw [if_neg hid] at hfs
      subst hfs
      exact hinv s hs
  · intro sl' h'
    rw [hdb'] at h'
    unfold updateShareLinkCounter at h'
    rw [List.mem_map] at h'
    obtain ⟨s, hs, hfs⟩ := h'
    by_cases hid : s.id = sl.id
    · have hssl : s = sl := hinj hs hmem hid
      subst hssl
      rw [if_pos rfl] at hfs
      subst hfs
      refine ⟨s, hs, rfl, rfl,
        by show s.currentDownloads ≤ s.currentDownloads + 1; omega,
        Or.inr ⟨rfl, ?_⟩⟩
      cases hm : s.maxDownloads with
      | none => exact Or.inl rfl
      | some m => exact Or.inr ⟨m, rfl, hmax m hm⟩
    · rw [if_neg hid] at hfs
      subst hfs
      exact ⟨s, hs, rfl, rfl, le_refl _, Or.inl rfl⟩
  · intro su req
    unfold downloadFile
    cases ht : jsStrTruthy req.token with
    | false => simp
    | true =>
        simp only [ht, Bool.not_true, Bool.false_eq_true, if_false]
        cases hrows : get_share_link_by_token db (req.token.getD "") now with
        | nil => simp
        | cons row rest =>
            cases hre : recheckValid row now with
            | false => simp [hre]
            | true =>
                simp only [hre, Bool.not_true, Bool.false_eq_true, if_false]
                cases hld : log_download db (req.token.getD "")
                    (reqUserAgent req) (clientIp req) now with
                | error e => simp
                | ok p => exact Or.inr ⟨p.1, p.2, rfl, rfl⟩

theorem C2_sharelink_invariant_preserved_witness :
    log_download dbA "tok" "uaA" "1.1.1.1" 100 = .ok (dbAafter, 11) ∧
    (∀ sl ∈ dbA.shareLinks, linkCountOk sl = true) ∧
    (∀ sl ∈ dbAafter.shareLinks, linkCountOk sl = true) :=
  ⟨by decide, by decide,
   (C2_sharelink_invariant_preserved dbA "tok" "uaA" "1.1.1.1" 100 dbAafter 11
     (by decide) (by decide) (by decide)).1⟩

/-- C10: a successful `log_download` changes, on `share_links`, only the
targeted link's `currentDownloads` (plus the trigger-maintained
`updatedAt`): each non-target row reappears unchanged, the target row
reappears with only those two fields changed, the table keeps its length,
and every row of the new table is an old row with `token`, `fileId`,
`expiresAt`, `maxDownloads`, `isActive`, `passwordHash` and `createdAt`
intact. -/
theorem C10_success_frames_other_rows (db : DB) (tok ua ip : String)
    (now : Int) (db' : DB) (logId : Nat)
    (hok : log_download db tok ua ip now = .ok (db', logId)) :
    ∃ sl, selectUsableLink db tok now = some sl ∧ sl ∈ db.shareLinks ∧
      sl.token = tok ∧
      db'.shareLinks.length = db.shareLinks.length ∧
      (∀ s ∈ db.shareLinks, s.id ≠ sl.id → s ∈ db'.shareLinks) ∧
      (∀ s ∈ db.shareLinks, s.id = sl.id →
        { s with currentDownloads := s.currentDownloads + 1,
                 updatedAt := now } ∈ db'.shareLinks) ∧
      (∀ s' ∈ db'.shareLinks, ∃ s ∈ db.shareLinks,
        s'.token = s.token ∧ s'.fileId = s.fileId ∧ s'.expiresAt = s.expiresAt ∧
        s'.maxDownloads = s.maxDownloads ∧ s'.isActive = s.isActive ∧
        s'.passwordHash = s.passwordHash ∧ s'.createdAt = s.createdAt ∧
        (s' = s ∨ (s'.currentDownloads = s.currentDownloads + 1 ∧
          s'.updatedAt = now))) := by
  obtain ⟨-, -, sl, hsel, -, hdb'⟩ := log_download_ok_inv db tok ua ip now db' logId hok
  obtain ⟨hmem, htok, -⟩ := selectUsableLink_spec db tok now sl hsel
  refine ⟨sl, hsel, hmem, htok, ?_, ?_, ?_, ?_⟩
  · rw [hdb']
    unfold updateShareLinkCounter
    exact List.length_map _ _
  · intro s hs hid
    have h4 := List.mem_map_of_mem
      (fun t : ShareLink => if t.id = sl.id then
        { t with currentDownloads := t.currentDownloads + 1, updatedAt := now }
      else t) hs
    rw [hdb']
    simpa [updateShareLinkCounter, hid] using h4
  · intro s hs hid
    have h4 := List.mem_map_of_mem
      (fun t : ShareLink => if t.id = sl.id then
        { t with currentDownloads := t.currentDownloads + 1, updatedAt := now }
      else t) hs
    rw [hdb']
    simpa [updateShareLinkCounter, hid] using h4
  · intro s' h'
    rw [hdb'] at h'
    unfold updateShareLinkCounter at h'
    rw [List.mem_map] at h'
    obtain ⟨s, hs, hfs⟩ := h'
    by_cases hid : s.id = sl.id
    · rw [if_pos hid] at hfs
      subst hfs
      exact ⟨s, hs, rfl, rfl, rfl, rfl, rfl, rfl, rfl, Or.inr ⟨rfl, rfl⟩⟩
    · rw [if_neg hid] at hfs
      subst hfs
      exact ⟨s, hs, rfl, rfl, rfl, rfl, rfl, rfl, rfl, Or.inl rfl⟩

theorem C10_success_frames_other_rows_witness :
    log_download dbA "tok" "uaA" "1.1.1.1" 100 = .ok (dbAafter, 11) ∧
    ∃ sl, selectUsableLink dbA "tok" 100 = some sl ∧ sl ∈ dbA.shareLinks ∧
      sl.token = "tok" ∧
      dbAafter.shareLinks.length = dbA.shareLinks.length ∧
      (∀ s ∈ dbA.shareLinks, s.id ≠ sl.id → s ∈ dbAafter.shareLinks) ∧
      (∀ s ∈ dbA.shareLinks, s.id = sl.id →
        { s with currentDownloads := s.currentDownloads + 1,
                 updatedAt := 100 } ∈ dbAafter.shareLinks) ∧
      (∀ s' ∈ dbAafter.shareLinks, ∃ s ∈ dbA.shareLinks,
        s'.token = s.token ∧ s'.fileId = s.fileId ∧ s'.expiresAt = s.expiresAt ∧
        s'.maxDownloads = s.maxDownloads ∧ s'.isActive = s.isActive ∧
        s'.passwordHash = s.passwordHash ∧ s'.createdAt = s.createdAt ∧
        (s' = s ∨ (s'.currentDownloads = s.currentDownloads + 1 ∧
          s'.updatedAt = 100))) :=
  ⟨by decide,
   C10_success_frames_other_rows dbA "tok" "uaA" "1.1.1.1" 100 dbAafter 11 (by decide)⟩

/-- C7: `get_share_link_by_token` returns at most one row, and any
returned row carries exactly the presented token and came from a link that
is active, unexpired (`expiresAt` null or strictly in the future) and
under its ceiling (`maxDownloads` null or `currentDownloads <
maxDownloads`) — the only public read path matches by exact token. -/
theorem C7_lookup_exact_token_only (db : DB) (tok : String) (now : Int)
    (r : ShareLinkRow) (hr : r ∈ get_share_link_by_token db tok now) :
    (get_share_link_by_token db tok now).length ≤ 1 ∧
    r.token = tok ∧ r.is_active = true ∧
    (∀ e, r.expires_at = some e → now < e) ∧
    (∀ m, r.max_downloads = some m → r.current_downloads < m) := by
  obtain ⟨sl, f, hmem, hf, hrf, htk, hus⟩ := mem_get_share_link db tok now r hr
  obtain ⟨hact, hexp, hmax⟩ := linkUsable_spec sl now hus
  subst hrf
  refine ⟨?_, htk, hact, hexp, hmax⟩
  unfold get_share_link_by_token
  exact List.length_take_le 1 _

theorem C7_lookup_exact_token_only_witness :
    rowA ∈ get_share_link_by_token dbA "tok" 100 ∧
    ((get_share_link_by_token dbA "tok" 100).length ≤ 1 ∧
     rowA.token = "tok" ∧ rowA.is_active = true ∧
     (∀ e, rowA.expires_at = some e → (100 : Int) < e) ∧
     (∀ m, rowA.max_downloads = some m → rowA.current_downloads < m)) :=
  ⟨by decide, C7_lookup_exact_token_only dbA "tok" 100 rowA (by decide)⟩

/-- C9: any row returned by `get_share_link_by_token` passes the edge
handler's usability re-check at the same instant, so the handler's 403
"Link is no longer valid" branch is unreachable for fresh lookups. -/
theorem C9_handler_recheck_always_passes (db : DB) (tok : String) (now : Int)
    (r : ShareLinkRow) (hr : r ∈ get_share_link_by_token db tok now) :
    recheckValid r now = true := by
  obtain ⟨sl, f, hmem, hf, hrf, htk, hus⟩ := mem_get_share_link db tok now r hr
  obtain ⟨hact, hexp, hmax⟩ := linkUsable_spec sl now hus
  subst hrf
  unfold recheckValid mkShareLinkRow
  simp only
  cases he : sl.expiresAt with
  | none =>
      cases hm : sl.maxDownloads with
      | none => simp [hact]
      | some m =>
          have hlt := hmax m hm
          by_cases hm0 : m = 0
          · simp [hact, hm0]
          · have : ¬ m ≤ sl.currentDownloads := by omega
            simp [hact, hm0, this]
  | some e =>
      have hlt := hexp e he
      have hne : ¬ e < now := by omega
      cases hm : sl.maxDownloads with
      | none => simp [hact, hne]
      | some m =>
          have hlt2 := hmax m hm
          by_cases hm0 : m = 0
          · simp [hact, hne, hm0]
          · have : ¬ m ≤ sl.currentDownloads := by omega
            simp [hact, hne, hm0, this]

theorem C9_handler_recheck_always_passes_witness :
    rowA ∈ get_share_link_by_token dbA "tok" 100 ∧ recheckValid rowA 100 = true :=
  ⟨by decide, C9_handler_recheck_always_passes dbA "tok" 100 rowA (by decide)⟩

/-- C1 fails on the code: two concurrent `log_download` transactions
against the link with `maxDownloads = 1`, `currentDownloads = 0`, under a
READ COMMITTED-realizable schedule (both run their rate checks and the
link SELECT before either writes; the SELECT takes no row lock and the
UPDATE re-checks nothing), both return a log id — two successes — and the
committed `currentDownloads` is 2 > 1, violating the at-most-N invariant. -/
theorem C1_race_two_successes :
    (runTwo dbA thread1 thread2 raceSchedule 100).2.1.res = some (.ok 11) ∧
    (runTwo dbA thread1 thread2 raceSchedule 100).2.2.res = some (.ok 13) ∧
    (runTwo dbA thread1 thread2 raceSchedule 100).1.shareLinks.map
      ShareLink.currentDownloads = [2] ∧
    linkA.maxDownloads = some 1 ∧
    (runTwo dbA thread1 thread2 raceSchedule 100).1.shareLinks.all
      linkCountOk = false := by
  decide

/-- C5 fails on the code: for a token matching no share link the handler
returns 404 with the store untouched — `log_download` is never invoked, so
no failed `DownloadAttempt` row is recorded; and even a direct
`log_download` call raises, aborting its transaction, so the failed-attempt
insert its body performs (visible in `log_download_run`) is rolled back
and nothing persists. -/
theorem C5_unknown_token_records_no_attempt :
    downloadFile signUrl0 dbA requestUnknown 100 =
      ({ status := 404, body := .failure "Invalid or expired link" }, dbA) ∧
    log_download dbA "nosuchtoken" "ua" "1.2.3.4" 100 = .error msgInvalidLink ∧
    (log_download_run dbA "nosuchtoken" "ua" "1.2.3.4" 100).1.downloadAttempts =
      [{ id := 10, ipAddress := "1.2.3.4", token := "nosuchtoken",
         attemptedAt := 100, success := false }] ∧
    dbA.downloadAttempts = [] := by
  decide

/-- C6 fails on the code: an expired link and an exhausted link produce
the identical 404 "Invalid or expired link" response — the same as an
unknown token — with the store unchanged (no failed attempt recorded),
instead of distinct `LinkExpired` / `LinkExhausted` errors. -/
theorem C6_counterexample_uniform_404 :
    downloadFile signUrl0 dbC6 requestExpired 100 =
      ({ status := 404, body := .failure "Invalid or expired link" }, dbC6) ∧
    downloadFile signUrl0 dbC6 requestExhausted 100 =
      ({ status := 404, body := .failure "Invalid or expired link" }, dbC6) ∧
    linkExpired ∈ dbC6.shareLinks ∧ linkExhausted ∈ dbC6.shareLinks ∧
    dbC6.downloadAttempts = [] := by
  decide

/-- C6 amended: every request whose token matches only unusable links
(expired, exhausted or inactive) is rejected exactly like an unknown token
— 404 with body "Invalid or expired link" — and the store is unchanged: no
failed `DownloadAttempt` is recorded and the two unusability reasons are
not distinguished. -/
theorem C6_amended_unusable_like_unknown (signUrl : String → String)
    (db : DB) (req : Request) (now : Int) (tok : String)
    (htok : req.token = some tok) (hne : tok ≠ "")
    (hall : ∀ s ∈ db.shareLinks, s.token = tok → linkUsable s now = false) :
    downloadFile signUrl db req now =
      ({ status := 404, body := .failure "Invalid or expired link" }, db) := by
  have hnil : (db.shareLinks.filter fun sl =>
      sl.token == tok && linkUsable sl now) = [] := by
    rw [List.filter_eq_nil_iff]
    intro a ha
    by_cases he : a.token = tok
    · simp [he, hall a ha he]
    · simp [he]
  have hrows : get_share_link_by_token db tok now = [] := by
    unfold get_share_link_by_token
    rw [hnil]
    rfl
  unfold downloadFile
  rw [htok]
  simp [jsStrTruthy, hne, hrows]

theorem C6_amended_unusable_like_unknown_witness :
    downloadFile signUrl0 dbC6 requestExhausted 100 =
      ({ status := 404, body := .failure "Invalid or expired link" }, dbC6) :=
  C6_amended_unusable_like_unknown signUrl0 dbC6 requestExhausted 100 "exhd"
    (by decide) (by decide) (by decide)

/-- C8 fails on the code: the two rate-limit rejections reach the client
as two different messages, each naming the tripped window (IP vs link),
and the 403 body is the store's raised error text verbatim. -/
theorem C8_counterexample_distinct_messages :
    (downloadFile signUrl0 dbIpLimited requestIpLimited 100).1 =
      { status := 403, body := .failure msgIpRateLimit } ∧
    (downloadFile signUrl0 dbTokenLimited requestTokenLimited 100).1 =
      { status := 403, body := .failure msgTokenRateLimit } ∧
    msgIpRateLimit ≠ msgTokenRateLimit := by
  decide

/-- C8 amended: a rate-limited request is answered 403 with the specific
raised message of whichever window tripped — the per-IP message when the
IP window is at its limit, the per-token message when only the failure
window is — so the store's error text is forwarded to the client and the
two windows are distinguishable from the response body. -/
theorem C8_amended_messages_forwarded (signUrl : String → String)
    (db : DB) (req : Request) (now : Int) (tok : String)
    (row : ShareLinkRow) (rest : List ShareLinkRow)
    (htok : req.token = some tok) (hne : tok ≠ "")
    (hrows : get_share_link_by_token db tok now = row :: rest)
    (hre : recheckValid row now = true) :
    (20 ≤ recentAttemptsCount db (clientIp req) now →
      downloadFile signUrl db req now =
        ({ status := 403, body := .failure msgIpRateLimit }, db)) ∧
    (recentAttemptsCount db (clientIp req) now < 20 →
     10 ≤ recentFailuresCount db tok now →
      downloadFile signUrl db req now =
        ({ status := 403, body := .failure msgTokenRateLimit }, db)) := by
  have hb1 : (msgIpRateLimit != "") = true := by decide
  have hb2 : (msgTokenRateLimit != "") = true := by decide
  constructor
  · intro h
    have hld := log_download_ip_limited db tok (reqUserAgent req) (clientIp req) now h
    unfold downloadFile
    rw [htok]
    simp [jsStrTruthy, hne, hrows, hre, hld, hb1]
  · intro h1 h2
    have hld := log_download_token_limited db tok (reqUserAgent req) (clientIp req)
      now h1 h2
    unfold downloadFile
    rw [htok]
    simp [jsStrTruthy, hne, hrows, hre, hld, hb2]

theorem C8_amended_messages_forwarded_witness :
    downloadFile signUrl0 dbIpLimited requestIpLimited 100 =
      ({ status := 403, body := .failure msgIpRateLimit }, dbIpLimited) :=
  (C8_amended_messages_forwarded signUrl0 dbIpLimited requestIpLimited 100
    "tok" rowA [] (by decide) (by decide) (by decide) (by decide)).1 (by decide)

/-- Soundness of the interleaving model: a transaction run alone (its 8
statements scheduled consecutively, the other thread never stepped) has
exactly the committed semantics of `log_download` — same final store, and
a terminal result matching `RETURN log_id` or the raised message. -/
theorem runTwo_alone_is_log_download (db : DB) (tok ua ip : String)
    (now : Int) (t2 : Thread) :
    (match log_download db tok ua ip now with
     | .ok (db2, i) =>
         (runTwo db (mkThread tok ua ip) t2
           [true, true, true, true, true, true, true, true] now).1 = db2 ∧
         (runTwo db (mkThread tok ua ip) t2
           [true, true, true, true, true, true, true, true] now).2.1.res =
           some (.ok i)
     | .error e =>
         (runTwo db (mkThread tok ua ip) t2
           [true, true, true, true, true, true, true, true] now).1 = db ∧
         (runTwo db (mkThread tok ua ip) t2
           [true, true, true, true, true, true, true, true] now).2.1.res =
           some (.error e)) := by
  unfold log_download log_download_run
  by_cases h1 : 20 ≤ recentAttemptsCount db ip now
  · simp [h1, runTwo, stepThread, mkThread]
  · by_cases h2 : 10 ≤ recentFailuresCount db tok now
    · simp [h1, h2, runTwo, stepThread, mkThread]
    · cases hsel : selectUsableLink db tok now with
      | none => simp [h1, h2, hsel, runTwo, stepThread, mkThread]
      | some sl =>
          simp [h1, h2, hsel, runTwo, stepThread, mkThread, insertAttempt, insertLog]
